import Mathlib

/-!
Verification development for the hybrid folder-recommendation engine
(LLMCoordinator / SmartConnectionsService).

JavaScript numbers are idealised as exact arithmetic: the purely rational
computations (confidence blending, centroid averaging, response parsing)
are embedded over ℚ so that concrete runs are decidable, while the
cosine-similarity and coherence computations, which use Math.sqrt, are
embedded over ℝ.
-/

/-! ## A model of JSON values and of the strict `JSON.parse` builtin

The coordinator parses judgment replies with the JavaScript builtin
`JSON.parse`.  The builtin is not repository code; it is modelled here from
the JSON grammar: values are null, booleans, numbers, strings, arrays and
objects; parsing is strict (no leading prose, no trailing garbage, no
unbalanced input).  Numbers are represented exactly as rationals.
-/

inductive JsonValue where
  | null : JsonValue
  | bool : Bool → JsonValue
  | num : ℚ → JsonValue
  | str : String → JsonValue
  | arr : List JsonValue → JsonValue
  | obj : List (String × JsonValue) → JsonValue

/-- Character constants written via code points so that the source text of
this file stays free of brace and quote literals. -/
def quoteChar : Char := Char.ofNat 34

def backslashChar : Char := Char.ofNat 92

def lbraceChar : Char := Char.ofNat 123

def rbraceChar : Char := Char.ofNat 125

def isJsonWs (c : Char) : Bool :=
  c == ' ' || c == Char.ofNat 9 || c == Char.ofNat 10 || c == Char.ofNat 13

def skipWs (cs : List Char) : List Char := cs.dropWhile isJsonWs

def digitVal (c : Char) : Nat := c.toNat - 48

def digitsToNat (ds : List Char) : Nat :=
  ds.foldl (fun acc c => 10 * acc + digitVal c) 0

def hexVal (c : Char) : Option Nat :=
  if c.isDigit then some (c.toNat - 48)
  else if c.toNat ≥ 97 && c.toNat ≤ 102 then some (c.toNat - 87)
  else if c.toNat ≥ 65 && c.toNat ≤ 70 then some (c.toNat - 55)
  else none

def escChar (c : Char) : Option Char :=
  if c = quoteChar then some quoteChar
  else if c = backslashChar then some backslashChar
  else if c = '/' then some '/'
  else if c = 'b' then some (Char.ofNat 8)
  else if c = 'f' then some (Char.ofNat 12)
  else if c = 'n' then some (Char.ofNat 10)
  else if c = 'r' then some (Char.ofNat 13)
  else if c = 't' then some (Char.ofNat 9)
  else none

/-- Parse the body of a JSON string literal (the opening quote already
consumed), handling the escape sequences of the JSON grammar; returns the
decoded characters and the remaining input. -/
def parseStringChars : List Char → Option (List Char × List Char)
  | [] => none
  | c :: rest =>
    if c = quoteChar then some ([], rest)
    else if c = backslashChar then
      match rest with
      | [] => none
      | e :: rest2 =>
        if e = 'u' then
          match rest2 with
          | h1 :: h2 :: h3 :: h4 :: rest6 =>
            match hexVal h1, hexVal h2, hexVal h3, hexVal h4 with
            | some a, some b, some c2, some d =>
              match parseStringChars rest6 with
              | some (cs, r) =>
                some (Char.ofNat (((a * 16 + b) * 16 + c2) * 16 + d) :: cs, r)
              | none => none
            | _, _, _, _ => none
          | _ => none
        else
          match escChar e with
          | some ec =>
            match parseStringChars rest2 with
            | some (cs, r) => some (ec :: cs, r)
            | none => none
          | none => none
    else if c.toNat < 32 then none
    else
      match parseStringChars rest with
      | some (cs, r) => some (c :: cs, r)
      | none => none

/-- Powers of ten as rationals, via Nat exponentiation so that concrete
runs reduce in the kernel. -/
def pow10 (n : Nat) : ℚ := ((10 ^ n : ℕ) : ℚ)

def parseFrac : List Char → Option (ℚ × List Char)
  | [] => some (0, [])
  | c :: rest =>
    if c = '.' then
      let p := rest.span Char.isDigit
      if p.1.isEmpty then none
      else some ((digitsToNat p.1 : ℚ) / pow10 p.1.length, p.2)
    else some (0, c :: rest)

def parseExp : List Char → Option (ℤ × List Char)
  | [] => some (0, [])
  | c :: rest =>
    if c = 'e' ∨ c = 'E' then
      let sp : ℤ × List Char :=
        match rest with
        | d :: r2 =>
          if d = '+' then (1, r2) else if d = '-' then (-1, r2) else (1, d :: r2)
        | [] => (1, [])
      let p := sp.2.span Char.isDigit
      if p.1.isEmpty then none
      else some (sp.1 * (digitsToNat p.1 : ℤ), p.2)
    else some (0, c :: rest)

/-- Parse a JSON number (strict grammar: optional minus, integer part
without leading zeros, optional fraction, optional exponent). -/
def parseNumber (cs : List Char) : Option (ℚ × List Char) :=
  let sp : Bool × List Char :=
    match cs with
    | c :: rest => if c = '-' then (true, rest) else (false, cs)
    | [] => (false, [])
  match sp.2 with
  | [] => none
  | c :: _ =>
    if ¬ c.isDigit then none
    else
      let ip := sp.2.span Char.isDigit
      if 1 < ip.1.length ∧ ip.1.headD 'x' = '0' then none
      else
        match parseFrac ip.2 with
        | none => none
        | some (fracVal, cs3) =>
          match parseExp cs3 with
          | none => none
          | some (expVal, cs4) =>
            let base : ℚ := (digitsToNat ip.1 : ℚ) + fracVal
            let signed : ℚ := if sp.1 then -base else base
            some (if 0 ≤ expVal then signed * pow10 expVal.toNat
                  else signed / pow10 (-expVal).toNat, cs4)

mutual

/-- Fuelled recursive-descent JSON value parser (the fuel only serves
termination; `jsonParse` supplies enough for any input). -/
def parseJsonValue : Nat → List Char → Option (JsonValue × List Char)
  | 0, _ => none
  | Nat.succ fuel, cs =>
    match skipWs cs with
    | [] => none
    | c :: rest =>
      if c = quoteChar then
        match parseStringChars rest with
        | some (s, r) => some (.str (String.mk s), r)
        | none => none
      else if c = lbraceChar then
        match skipWs rest with
        | c1 :: r2 =>
          if c1 = rbraceChar then some (.obj [], r2)
          else
            match parseJsonMembers fuel (c1 :: r2) with
            | some (ms, r) => some (.obj ms, r)
            | none => none
        | [] => none
      else if c = '[' then
        match skipWs rest with
        | c1 :: r2 =>
          if c1 = ']' then some (.arr [], r2)
          else
            match parseJsonItems fuel (c1 :: r2) with
            | some (vs, r) => some (.arr vs, r)
            | none => none
        | [] => none
      else if c = 'n' then
        match rest with
        | 'u' :: 'l' :: 'l' :: r => some (.null, r)
        | _ => none
      else if c = 't' then
        match rest with
        | 'r' :: 'u' :: 'e' :: r => some (.bool true, r)
        | _ => none
      else if c = 'f' then
        match rest with
        | 'a' :: 'l' :: 's' :: 'e' :: r => some (.bool false, r)
        | _ => none
      else
        match parseNumber (c :: rest) with
        | some (q, r) => some (.num q, r)
        | none => none

/-- Parse the members of a JSON object, positioned at the first key. -/
def parseJsonMembers : Nat → List Char → Option (List (String × JsonValue) × List Char)
  | 0, _ => none
  | Nat.succ fuel, cs =>
    match cs with
    | c :: rest =>
      if c = quoteChar then
        match parseStringChars rest with
        | some (key, r2) =>
          match skipWs r2 with
          | c3 :: r3 =>
            if c3 = ':' then
              match parseJsonValue fuel r3 with
              | some (v, r4) =>
                match skipWs r4 with
                | c5 :: r5 =>
                  if c5 = ',' then
                    match parseJsonMembers fuel (skipWs r5) with
                    | some (ms, r6) => some ((String.mk key, v) :: ms, r6)
                    | none => none
                  else if c5 = rbraceChar then some ([(String.mk key, v)], r5)
                  else none
                | [] => none
              | none => none
            else none
          | [] => none
        | none => none
      else none
    | [] => none

/-- Parse the items of a JSON array, positioned at the first item. -/
def parseJsonItems : Nat → List Char → Option (List JsonValue × List Char)
  | 0, _ => none
  | Nat.succ fuel, cs =>
    match parseJsonValue fuel cs with
    | some (v, r) =>
      match skipWs r with
      | c :: r2 =>
        if c = ',' then
          match parseJsonItems fuel r2 with
          | some (vs, r3) => some (v :: vs, r3)
          | none => none
        else if c = ']' then some ([v], r2)
        else none
      | [] => none
    | none => none

end

/-- Model of the strict JavaScript builtin `JSON.parse`: parse one value,
allow surrounding whitespace, reject any other trailing input.  Returns
`none` exactly when `JSON.parse` would throw. -/
def jsonParse (s : String) : Option JsonValue :=
  match parseJsonValue (s.length + 1) s.data with
  | some (j, rest) => if (skipWs rest).isEmpty then some j else none
  | none => none

/-! ## Data model

The record types below come from the data model of the plugin
(`src/models/types.ts` is referenced by every service but its file is not
part of the sources).  Only the fields exercised by the engine are
modelled. -/

/-- Match-strength tier of a recommendation. -/
inductive MatchStrength where
  | strong : MatchStrength
  | moderate : MatchStrength
  | weak : MatchStrength
deriving DecidableEq

/-- Modelled from the spec: a folder profile (§3 FolderProfile) with the
fields read by `LLMCoordinator`: unique folder path, display name,
coherence score, centroid-validity flag and optional centroid vector. -/
structure FolderProfile where
  folderPath : String
  folderName : String
  coherenceScore : ℚ
  hasValidCentroid : Bool
  folderCentroid : Option (List ℚ)

/-- Modelled from the spec: a recommendation record (§3 Recommendation).
Optional fields stand for JavaScript `undefined`: `similarity` and
`enhancedConfidence` are unset until the fusion step runs; `folderName`
and `reasoning` may be absent in a reply. -/
structure FolderRecommendation where
  folderPath : String
  folderName : Option String
  confidence : ℚ
  reasoning : Option String
  matchedTopics : List String
  matchStrength : MatchStrength
  similarity : Option ℚ
  enhancedConfidence : Option ℚ

/-- Modelled from the spec: the result record (§3 RecommendationResult).
The wall-clock metadata (timestamp, processing time, token usage) is a
side effect of the host and is not part of the pure model.  The
`suggestedNewFolder` payload is stored verbatim as the JSON value found in
the reply, exactly as the coordinator does. -/
structure RecommendationResult where
  primaryRecommendation : FolderRecommendation
  alternatives : List FolderRecommendation
  shouldCreateNewFolder : Bool
  suggestedNewFolder : Option JsonValue

/-- Typed parse failure: `parseRecommendationResponse` rethrows any
exception of its body as a single "Failed to parse LLM response" error. -/
inductive ParseError where
  | parseFailure : ParseError
deriving DecidableEq

/-- Typed scoring fault: stands for any exception the try/catch of
`processRec` may intercept during similarity computation. -/
inductive ScoringError where
  | fault : ScoringError
deriving DecidableEq

/-! ## JavaScript field access and truthiness helpers -/

/-- Property access `obj[k]` on a parsed JSON value: objects yield their
last binding for the key (as `JSON.parse` does for duplicate keys), any
other value yields `undefined` (`none`). -/
def JsonValue.getField (j : JsonValue) (k : String) : Option JsonValue :=
  match j with
  | .obj fields => ((fields.reverse).find? (fun p => p.1 == k)).map (fun p => p.2)
  | _ => none

/-- String-valued field, `none` when absent or not a string. -/
def JsonValue.getStr (j : JsonValue) (k : String) : Option String :=
  match j.getField k with
  | some (.str s) => some s
  | _ => none

/-- Number-valued field, `none` when absent or not a number. -/
def JsonValue.getNum (j : JsonValue) (k : String) : Option ℚ :=
  match j.getField k with
  | some (.num q) => some q
  | _ => none

/-- Total `Option`-valued map, modelling `array.map` restricted to the
domain where every element builds successfully. -/
def mapOption {α β : Type} (f : α → Option β) : List α → Option (List β)
  | [] => some []
  | x :: xs =>
    match f x, mapOption f xs with
    | some y, some ys => some (y :: ys)
    | _, _ => none

/-- String-array field, `none` when absent or not an array of strings. -/
def JsonValue.getStrList (j : JsonValue) (k : String) : Option (List String) :=
  match j.getField k with
  | some (.arr xs) =>
    mapOption (fun v => match v with | JsonValue.str s => some s | _ => none) xs
  | _ => none

/-- JavaScript truthiness of a JSON value: `null`, `false`, `0` and the
empty string are falsy; arrays and objects are always truthy. -/
def jsTruthy : JsonValue → Bool
  | .null => false
  | .bool b => b
  | .num q => q != 0
  | .str s => s != ""
  | .arr _ => true
  | .obj _ => true

/-- JavaScript `a || b` where `a` is a possibly-absent string and the
result must be a string: an absent or empty `a` falls through to `b`. -/
def jsStrOr (a : Option String) (b : String) : String :=
  match a with
  | some s => if s = "" then b else s
  | none => b

/-- JavaScript `a || b` on possibly-absent strings, keeping absence. -/
def jsStrOrOpt (a b : Option String) : Option String :=
  match a with
  | some s => if s = "" then b else some s
  | none => b

/-- JavaScript `(x || []).map` receiver: a falsy `alternatives` field (or
an absent one) becomes the empty array, an actual array is used as is,
and a truthy non-array receiver makes `.map` throw (`none` here). -/
def jsArrOrEmpty : Option JsonValue → Option (List JsonValue)
  | none => some []
  | some .null => some []
  | some (.bool b) => if b then none else some []
  | some (.num q) => if q = 0 then some [] else none
  | some (.str s) => if s = "" then some [] else none
  | some (.arr xs) => some xs
  | some (.obj _) => none

/-! ## Response parsing (`LLMCoordinator.parseRecommendationResponse`) -/

/-- Tier assignment used for the primary recommendation:
confidence above 80 is strong, above 60 moderate, otherwise weak. -/
def matchStrengthOfConfidence (c : ℚ) : MatchStrength :=
  if 80 < c then .strong else if 60 < c then .moderate else .weak

/-- Build one recommendation record from a parsed JSON candidate, mirroring
the object literals of `parseRecommendationResponse`: the folder path is
the first truthy value among the `folderPath`, `folder`, `folderName`
aliases (empty string if none), the folder name prefers the profile found
under the raw `folderPath` field, `matchedTopics` defaults to the empty
list, and the tier is computed by `strength` (threshold tiers for the
primary, constantly moderate for alternatives).

Domain note: candidates that are not objects, or whose `confidence` field
is not a JSON number, are outside the modelled domain and yield `none`
(the TypeScript annotation declares `confidence: number`; at runtime the
source would propagate `undefined`/`NaN` instead). -/
def buildRecommendation (folderProfiles : List FolderProfile)
    (strength : ℚ → MatchStrength) (j : JsonValue) : Option FolderRecommendation :=
  match j with
  | .obj _ =>
    match j.getNum "confidence" with
    | some confidence =>
      let rawFolderPath := j.getStr "folderPath"
      let found : Option FolderProfile :=
        match rawFolderPath with
        | some s => folderProfiles.find? (fun f => f.folderPath == s)
        | none => none
      some
        { folderPath :=
            jsStrOr rawFolderPath (jsStrOr (j.getStr "folder") (jsStrOr (j.getStr "folderName") ""))
          folderName :=
            jsStrOrOpt (found.map (fun f => f.folderName)) (jsStrOrOpt (j.getStr "folderName") rawFolderPath)
          confidence := confidence
          reasoning := j.getStr "reasoning"
          matchedTopics := (j.getStrList "matchedTopics").getD []
          matchStrength := strength confidence
          similarity := none
          enhancedConfidence := none }
    | none => none
  | _ => none

/-- Model of `parseRecommendationResponse` (src/services/LLMCoordinator.ts):
a single strict `JSON.parse` inside a try/catch.  A parse failure, an
absent or null `primaryRecommendation` (whose property access would throw
a TypeError), or a truthy non-array `alternatives` field all surface as
the one ParseError the catch block rethrows.  There is no recovery scan
for JSON embedded in surrounding text. -/
def parseRecommendationResponse (content : String)
    (folderProfiles : List FolderProfile) : Except ParseError RecommendationResult :=
  match jsonParse content with
  | none => .error .parseFailure
  | some json =>
    match json.getField "primaryRecommendation" with
    | none => .error .parseFailure
    | some primaryJson =>
      match buildRecommendation folderProfiles matchStrengthOfConfidence primaryJson with
      | none => .error .parseFailure
      | some primary =>
        match jsArrOrEmpty (json.getField "alternatives") with
        | none => .error .parseFailure
        | some altJsons =>
          match mapOption (buildRecommendation folderProfiles (fun _ => .moderate)) altJsons with
          | none => .error .parseFailure
          | some alternatives =>
            let snf := json.getField "suggestedNewFolder"
            .ok
              { primaryRecommendation := primary
                alternatives := alternatives
                shouldCreateNewFolder :=
                  match snf with
                  | some v =>
                    jsTruthy v &&
                      (match v.getField "name" with
                       | some nv => jsTruthy nv
                       | none => false)
                  | none => false
                suggestedNewFolder := snf }

/-! ## Score fusion (`LLMCoordinator.blendConfidenceScores`,
`scoreRecommendationsWithEmbeddings`) -/

/-- Model of `blendConfidenceScores`: weight the judgment confidence by
`1 - coherence` and the similarity by `coherence`, then clamp the sum to
the unit interval with `Math.max(0, Math.min(1, blended))`. -/
def blendConfidenceScores {K : Type} [LinearOrderedField K]
    (llmConfidence similarity coherence : K) : K :=
  let embedWeight := coherence
  let llmWeight := 1 - coherence
  let blended := llmConfidence * llmWeight + similarity * embedWeight
  max 0 (min 1 blended)

/-- JavaScript `Math.round`: round half up, `⌊x + 1/2⌋`. -/
def jsRound {K : Type} [LinearOrderedField K] [FloorRing K] (x : K) : K :=
  ((⌊x + 1 / 2⌋ : ℤ) : K)

/-- Model of the per-recommendation closure `processRec` inside
`scoreRecommendationsWithEmbeddings`.  The try/catch treats the
similarity computation as a black box that may throw, so that computation
is passed in as `simFn`; an exception (`Except.error`) lands in the catch
block, which installs the neutral fallback (similarity one half,
enhanced confidence equal to the original confidence).  The same fallback
is installed when the folder profile is missing or has no valid centroid.
On the successful path the raw similarity is stored, a falsy (zero)
coherence score defaults to one half, and the enhanced confidence is the
blended score rescaled to 0..100 and rounded. -/
def processRec (simFn : List ℚ → List ℚ → Except ScoringError ℚ)
    (folderProfiles : List FolderProfile) (currentFileEmbedding : List ℚ)
    (rec : FolderRecommendation) : FolderRecommendation :=
  match folderProfiles.find? (fun f => f.folderPath == rec.folderPath) with
  | none => { rec with similarity := some (1 / 2), enhancedConfidence := some rec.confidence }
  | some folderData =>
    match folderData.hasValidCentroid, folderData.folderCentroid with
    | true, some centroid =>
      match simFn currentFileEmbedding centroid with
      | .error _ =>
        { rec with similarity := some (1 / 2), enhancedConfidence := some rec.confidence }
      | .ok similarity =>
        let coherence := if folderData.coherenceScore = 0 then 1 / 2 else folderData.coherenceScore
        let llmConf := rec.confidence / 100
        let blended := blendConfidenceScores llmConf similarity coherence
        { rec with
            similarity := some similarity
            enhancedConfidence := some (jsRound (blended * 100)) }
    | _, _ => { rec with similarity := some (1 / 2), enhancedConfidence := some rec.confidence }

/-- Model of `scoreRecommendationsWithEmbeddings`: apply `processRec` to
the primary recommendation and to each alternative independently. -/
def scoreRecommendationsWithEmbeddings
    (simFn : List ℚ → List ℚ → Except ScoringError ℚ)
    (recommendations : RecommendationResult) (currentFileEmbedding : List ℚ)
    (folderProfiles : List FolderProfile) : RecommendationResult :=
  { recommendations with
      primaryRecommendation :=
        processRec simFn folderProfiles currentFileEmbedding recommendations.primaryRecommendation
      alternatives :=
        recommendations.alternatives.map (processRec simFn folderProfiles currentFileEmbedding) }

/-! ## Embedding geometry (`cosineSimilarity`, SmartConnectionsService) -/

section RealEmbeddings

open Classical

/-- Model of `cosineSimilarity` (identical in LLMCoordinator.ts lines
152-177 and SmartConnectionsService.ts lines 233-260): vectors of unequal
length give 0; otherwise the dot product and the two squared magnitudes
are accumulated, and if either magnitude (after `Math.sqrt`) is zero the
function returns 0, else the quotient.  `Math.sqrt` forces this function
onto ℝ. -/
noncomputable def cosineSimilarity (vec1 vec2 : List ℝ) : ℝ :=
  if vec1.length ≠ vec2.length then 0
  else
    let dotProduct := (List.zipWith (fun a b => a * b) vec1 vec2).sum
    let mag1 := Real.sqrt ((vec1.map (fun v => v * v)).sum)
    let mag2 := Real.sqrt ((vec2.map (fun v => v * v)).sum)
    if mag1 = 0 ∨ mag2 = 0 then 0
    else dotProduct / (mag1 * mag2)

/-- All unordered pairs of a list in the order enumerated by the double
loop `for i; for j = i+1` of `calculateCoherence`. -/
def pairsOf {β : Type} : List β → List (β × β)
  | [] => []
  | x :: xs => (xs.map (fun y => (x, y))) ++ pairsOf xs

/-- Model of `SmartConnectionsService.calculateCoherence`: 0.7 when the
backend is unavailable or fewer than two files are given; valid
embeddings are the files whose lookup succeeds (a returned array is kept
even when empty — `if (emb)` only tests non-null); 0.7 again when fewer
than two remain; otherwise the average of `cosineSimilarity` over the
pairs enumerated by the nested loops (the `pairs > 0` guard of the source
is kept).  The embedding lookup is passed in as `getEmb`, abstracting the
EmbeddingStore. -/
noncomputable def calculateCoherence {α : Type} (isAvailable : Bool)
    (getEmb : α → Option (List ℝ)) (files : List α) : ℝ :=
  if isAvailable = false ∨ files.length < 2 then 7 / 10
  else
    let embeddings := files.filterMap getEmb
    if embeddings.length < 2 then 7 / 10
    else
      let ps := pairsOf embeddings
      let totalSim := (ps.map (fun p => cosineSimilarity p.1 p.2)).sum
      let pairs := ps.length
      if 0 < pairs then totalSim / (pairs : ℝ) else 7 / 10

end RealEmbeddings

/-! ## Folder centroid (`SmartConnectionsService.calculateFolderCentroid`) -/

/-- Embeddings kept by the centroid loop: lookups that succeed with a
non-empty array (`embedding && Array.isArray(embedding) &&
embedding.length > 0`). -/
def validEmbeddings {α : Type} (getEmb : α → Option (List ℚ)) (files : List α) :
    List (List ℚ) :=
  files.filterMap (fun f =>
    match getEmb f with
    | some e => if 0 < e.length then some e else none
    | none => none)

/-- Model of the computational core of `calculateFolderCentroid`: `none`
when no valid embedding was found, otherwise the vector whose dimension
is that of the first valid embedding and whose i-th entry is the sum of
the i-th entries (missing entries read as 0, matching `emb[i] || 0`)
divided by the number of valid embeddings. -/
def calculateFolderCentroid {α : Type} (getEmb : α → Option (List ℚ))
    (files : List α) : Option (List ℚ) :=
  match validEmbeddings getEmb files with
  | [] => none
  | e0 :: es =>
    let embeddings := e0 :: es
    some ((List.range e0.length).map (fun i =>
      (embeddings.map (fun emb => emb.getD i 0)).sum / (embeddings.length : ℚ)))

/-- Model of `calculateFolderCentroid` including its availability guard
and the per-folder-path cache (`this.folderCentroids`): an unavailable
backend yields `none` without touching the cache, a cache hit returns the
cached vector, and a fresh successful computation is published into the
cache.  The cache is threaded explicitly as an association list. -/
def calculateFolderCentroidCached {α : Type} (isAvailable : Bool)
    (getEmb : α → Option (List ℚ)) (cache : List (String × List ℚ))
    (folderPath : String) (files : List α) :
    Option (List ℚ) × List (String × List ℚ) :=
  if isAvailable = false then (none, cache)
  else
    match cache.lookup folderPath with
    | some v => (some v, cache)
    | none =>
      match calculateFolderCentroid getEmb files with
      | none => (none, cache)
      | some c => (some c, (folderPath, c) :: cache)

/-! ## The balanced-brace scanner described by the specification

The specification (§4.3) prescribes a recovery step for replies whose
JSON is wrapped in prose or code fences: find the first balanced brace
substring, treating characters inside string literals — including escaped
quotes — as non-structural.  The two definitions below follow the spec
text (they mirror the scanner the repository uses for .ajson stores);
they exist to be compared with the actual parser, which has no such
step. -/

def specScanBody : List Char → Bool → Bool → Nat → List Char → Option (List Char)
  | [], _, _, _, _ => none
  | c :: rest, inString, esc, depth, acc =>
    if esc then specScanBody rest inString false depth (c :: acc)
    else if c = backslashChar then specScanBody rest inString true depth (c :: acc)
    else if c = quoteChar then specScanBody rest (!inString) false depth (c :: acc)
    else if inString then specScanBody rest inString false depth (c :: acc)
    else if c = lbraceChar then specScanBody rest inString false (depth + 1) (c :: acc)
    else if c = rbraceChar then
      if depth = 1 then some (c :: acc)
      else specScanBody rest inString false (depth - 1) (c :: acc)
    else specScanBody rest inString false depth (c :: acc)

def specScanStart : List Char → Option (List Char)
  | [] => none
  | c :: rest =>
    if c = lbraceChar then specScanBody rest false false 1 [c]
    else specScanStart rest

/-- The first balanced brace-delimited substring of `s`, with string
literals and escape sequences treated as non-structural, as §4.3 of the
specification describes. -/
def specScanBalancedObject (s : String) : Option String :=
  (specScanStart s.data).map (fun cs => String.mk cs.reverse)

/-! ## Helper lemmas -/

section Theorems

attribute [local semireducible] Rat.add Rat.mul Rat.inv Rat.sub

set_option maxRecDepth 400000

lemma blendConfidenceScores_def {K : Type} [LinearOrderedField K] (a s c : K) :
    blendConfidenceScores a s c = max 0 (min 1 (a * (1 - c) + s * c)) := rfl

lemma blendConfidenceScores_nonneg {K : Type} [LinearOrderedField K] (a s c : K) :
    0 ≤ blendConfidenceScores a s c := le_max_left 0 _

lemma blendConfidenceScores_le_one {K : Type} [LinearOrderedField K] (a s c : K) :
    blendConfidenceScores a s c ≤ 1 :=
  max_le zero_le_one (min_le_left 1 _)

lemma jsRound_bounds (x : ℚ) (h0 : 0 ≤ x) (h1 : x ≤ 100) :
    0 ≤ jsRound x ∧ jsRound x ≤ 100 := by
  unfold jsRound
  constructor
  · have h : (0 : ℤ) ≤ ⌊x + 1 / 2⌋ := Int.le_floor.mpr (by push_cast; linarith)
    exact_mod_cast h
  · have h : ⌊x + 1 / 2⌋ < 101 := Int.floor_lt.mpr (by push_cast; linarith)
    have h2 : ⌊x + 1 / 2⌋ ≤ 100 := by omega
    exact_mod_cast h2

lemma buildRecommendation_matchStrength (folderProfiles : List FolderProfile)
    (strength : ℚ → MatchStrength) (j : JsonValue) (r : FolderRecommendation)
    (h : buildRecommendation folderProfiles strength j = some r) :
    r.matchStrength = strength r.confidence := by
  cases j with
  | obj fields =>
    unfold buildRecommendation at h
    cases hc : (JsonValue.obj fields).getNum "confidence" with
    | none => rw [hc] at h; cases h
    | some q => rw [hc] at h; injection h with h; subst h; rfl
  | null => cases h
  | bool b => cases h
  | num q => cases h
  | str s => cases h
  | arr xs => cases h

lemma mapOption_mem {α β : Type} (f : α → Option β) :
    ∀ (xs : List α) (ys : List β), mapOption f xs = some ys →
      ∀ y ∈ ys, ∃ x, f x = some y := by
  intro xs
  induction xs with
  | nil => intro ys h y hy; cases h; cases hy
  | cons x xs ih =>
    intro ys h y hy
    unfold mapOption at h
    cases hfx : f x with
    | none => rw [hfx] at h; cases h
    | some b =>
      rw [hfx] at h
      cases hrest : mapOption f xs with
      | none => rw [hrest] at h; cases h
      | some bs =>
        rw [hrest] at h
        injection h with h
        subst h
        cases hy with
        | head => exact ⟨x, hfx⟩
        | tail _ hmem => exact ih bs hrest y hmem

lemma two_mul_pairsOf_length_add {β : Type} :
    ∀ l : List β, 2 * (pairsOf l).length + l.length = l.length * l.length := by
  intro l
  induction l with
  | nil => rfl
  | cons x xs ih =>
    simp only [pairsOf, List.length_append, List.length_map, List.length_cons]
    nlinarith [ih]

lemma pairsOf_length {β : Type} (l : List β) :
    (pairsOf l).length = l.length * (l.length - 1) / 2 := by
  have h := two_mul_pairsOf_length_add l
  have hmul : l.length * (l.length - 1) = l.length * l.length - l.length := by
    rw [← Nat.pred_eq_sub_one, Nat.mul_pred]
  generalize hK : l.length * (l.length - 1) = K at hmul ⊢
  generalize hM : l.length * l.length = M at h hmul
  omega

lemma sum_sq_nonneg (v : List ℝ) : 0 ≤ (v.map (fun x => x * x)).sum := by
  apply List.sum_nonneg
  intro y hy
  obtain ⟨x, _, hx⟩ := List.mem_map.mp hy
  rw [← hx]
  exact mul_self_nonneg x

lemma cosineSimilarity_self (v : List ℝ) (h : (v.map (fun x => x * x)).sum ≠ 0) :
    cosineSimilarity v v = 1 := by
  have hS : 0 ≤ (v.map (fun x => x * x)).sum := sum_sq_nonneg v
  have hsqrt : Real.sqrt ((v.map (fun x => x * x)).sum) ≠ 0 := by
    rw [Ne, Real.sqrt_eq_zero hS]
    exact h
  unfold cosineSimilarity
  rw [if_neg (by simp), if_neg (by push_neg; exact ⟨hsqrt, hsqrt⟩)]
  rw [List.zipWith_same]
  rw [Real.mul_self_sqrt hS]
  exact div_self h

/-! ## Claim theorems -/

/-- C1: for all real inputs, `blendConfidenceScores` returns exactly
`judgmentConfidence * (1 - coherence) + similarity * coherence` clamped to
[0,1]; in particular (and indeed for all inputs, hence for every
judgmentConfidence, similarity in [-1,1] and coherence in [0,1]) the
returned value lies in [0,1]. -/
theorem blendConfidenceScores_formula_and_range :
    ∀ judgmentConfidence similarity coherence : ℝ,
      blendConfidenceScores judgmentConfidence similarity coherence
        = max 0 (min 1 (judgmentConfidence * (1 - coherence) + similarity * coherence))
      ∧ 0 ≤ blendConfidenceScores judgmentConfidence similarity coherence
      ∧ blendConfidenceScores judgmentConfidence similarity coherence ≤ 1 :=
  fun a s c =>
    ⟨blendConfidenceScores_def a s c, blendConfidenceScores_nonneg a s c,
      blendConfidenceScores_le_one a s c⟩

/-- C3: whenever the folder looked up for a recommendation is missing or
has no valid centroid (validity flag false or centroid absent), the
fusion step stores the neutral similarity 1/2 and sets the enhanced
confidence equal to the original judgment confidence, leaving every other
field unchanged — fusion is a no-op for that candidate. -/
theorem processRec_neutral_fallback_no_centroid
    (simFn : List ℚ → List ℚ → Except ScoringError ℚ)
    (folderProfiles : List FolderProfile) (currentFileEmbedding : List ℚ)
    (rec : FolderRecommendation)
    (h : ∀ fd, folderProfiles.find? (fun f => f.folderPath == rec.folderPath) = some fd →
        fd.hasValidCentroid = false ∨ fd.folderCentroid = none) :
    processRec simFn folderProfiles currentFileEmbedding rec
      = { rec with similarity := some (1 / 2), enhancedConfidence := some rec.confidence } := by
  unfold processRec
  cases hfind : folderProfiles.find? (fun f => f.folderPath == rec.folderPath) with
  | none => rfl
  | some fd =>
    dsimp only
    rcases h fd hfind with hv | hc
    · rw [hv]
    · rw [hc]
      cases fd.hasValidCentroid <;> rfl

/-- Sample folder profile without a valid centroid, for the C3 witness. -/
def c3Profile : FolderProfile :=
  { folderPath := "Inbox", folderName := "Inbox", coherenceScore := 7 / 10,
    hasValidCentroid := false, folderCentroid := none }

/-- Sample parsed recommendation targeting the Inbox folder with judgment
confidence 50, for the C3 witness. -/
def c3Rec : FolderRecommendation :=
  { folderPath := "Inbox", folderName := some "Inbox", confidence := 50,
    reasoning := none, matchedTopics := [], matchStrength := MatchStrength.weak,
    similarity := none, enhancedConfidence := none }

/-- Witness for C3: the Inbox folder has no valid centroid, so scoring the
confidence-50 recommendation stores similarity 1/2 and enhanced
confidence 50, unchanged from the original. -/
theorem processRec_neutral_fallback_no_centroid_witness :
    processRec (fun _ _ => Except.ok 1) [c3Profile] [1] c3Rec
      = { c3Rec with similarity := some (1 / 2), enhancedConfidence := some c3Rec.confidence } := by
  apply processRec_neutral_fallback_no_centroid
  intro fd hfd
  have hfd2 : fd = c3Profile := by
    have : [c3Profile].find? (fun f => f.folderPath == c3Rec.folderPath) = some c3Profile := by rfl
    rw [this] at hfd
    injection hfd with h
    exact h.symm
  subst hfd2
  exact Or.inl rfl

/-- C4: an exception thrown by the similarity computation for one
candidate is caught by the per-recommendation try/catch and produces the
same neutral fallback (similarity 1/2, enhanced confidence equal to the
original confidence); and the scoring pass computes each candidate —
the primary and every alternative — independently by the same
per-recommendation function, so one candidate's failure cannot abort the
others.  The similarity computation is abstracted as `simFn` because the
try/catch treats it as a black box that may throw (in the concrete source
`cosineSimilarity` is total, so the catch is purely defensive). -/
theorem processRec_scoring_error_isolated
    (simFn : List ℚ → List ℚ → Except ScoringError ℚ)
    (folderProfiles : List FolderProfile) (currentFileEmbedding : List ℚ)
    (result : RecommendationResult) (rec : FolderRecommendation)
    (fd : FolderProfile) (centroid : List ℚ) (e : ScoringError)
    (hfind : folderProfiles.find? (fun f => f.folderPath == rec.folderPath) = some fd)
    (hvalid : fd.hasValidCentroid = true)
    (hcent : fd.folderCentroid = some centroid)
    (herr : simFn currentFileEmbedding centroid = Except.error e) :
    processRec simFn folderProfiles currentFileEmbedding rec
      = { rec with similarity := some (1 / 2), enhancedConfidence := some rec.confidence }
    ∧ (scoreRecommendationsWithEmbeddings simFn result currentFileEmbedding folderProfiles).primaryRecommendation
        = processRec simFn folderProfiles currentFileEmbedding result.primaryRecommendation
    ∧ (scoreRecommendationsWithEmbeddings simFn result currentFileEmbedding folderProfiles).alternatives
        = result.alternatives.map (processRec simFn folderProfiles currentFileEmbedding) := by
  refine ⟨?_, rfl, rfl⟩
  unfold processRec
  rw [hfind]
  simp only [hvalid, hcent, herr]

/-- Folder profile with a valid centroid, for the C4 witness. -/
def c4Profile : FolderProfile :=
  { folderPath := "Projects", folderName := "Projects", coherenceScore := 9 / 10,
    hasValidCentroid := true, folderCentroid := some [1, 0] }

/-- Recommendation targeting the Projects folder, for the C4 witness. -/
def c4Rec : FolderRecommendation :=
  { folderPath := "Projects", folderName := some "Projects", confidence := 70,
    reasoning := none, matchedTopics := [], matchStrength := MatchStrength.moderate,
    similarity := none, enhancedConfidence := none }

/-- Result holding the C4 recommendation as primary and as an alternative. -/
def c4Result : RecommendationResult :=
  { primaryRecommendation := c4Rec, alternatives := [c4Rec, c3Rec],
    shouldCreateNewFolder := false, suggestedNewFolder := none }

/-- Witness for C4: with a similarity computation that always throws, the
candidate with a valid centroid still receives the neutral fallback, and
the scoring pass maps the primary and the alternatives independently. -/
theorem processRec_scoring_error_isolated_witness :
    processRec (fun _ _ => Except.error ScoringError.fault) [c4Profile] [1] c4Rec
      = { c4Rec with similarity := some (1 / 2), enhancedConfidence := some c4Rec.confidence }
    ∧ (scoreRecommendationsWithEmbeddings (fun _ _ => Except.error ScoringError.fault)
          c4Result [1] [c4Profile]).primaryRecommendation
        = processRec (fun _ _ => Except.error ScoringError.fault) [c4Profile] [1]
            c4Result.primaryRecommendation
    ∧ (scoreRecommendationsWithEmbeddings (fun _ _ => Except.error ScoringError.fault)
          c4Result [1] [c4Profile]).alternatives
        = c4Result.alternatives.map
            (processRec (fun _ _ => Except.error ScoringError.fault) [c4Profile] [1]) :=
  processRec_scoring_error_isolated _ _ _ c4Result c4Rec c4Profile [1, 0]
    ScoringError.fault rfl rfl rfl rfl

/-- C6 counterexample: with judgment confidence 1, similarity -1/2 and
coherence 1/2, the blend is 1/4, while clamping the similarity to 0
before weighting would give 1/2 — so the fused result does not equal the
result computed with a negative similarity replaced by 0, contrary to the
claim that negative similarity is clamped during blending. -/
theorem blend_negative_similarity_cex :
    blendConfidenceScores (1 : ℝ) (-(1 / 2)) (1 / 2) = 1 / 4
    ∧ blendConfidenceScores (1 : ℝ) 0 (1 / 2) = 1 / 2
    ∧ (1 / 4 : ℝ) ≠ 1 / 2 := by
  refine ⟨?_, ?_, by norm_num⟩ <;>
    · rw [blendConfidenceScores_def]
      norm_num [min_def, max_def]

/-- C6 amended: a negative similarity is not clamped before weighting —
the raw similarity enters the weighted sum `jc * (1 - c) + s * c` and
only the final blended value is clamped to [0,1]; on the successful
scoring path the stored similarity field keeps the raw (possibly
negative) value, and the enhanced confidence is the rounded rescaled
blend of that raw value. -/
theorem blend_no_preclamp_raw_similarity_stored :
    (∀ jc s c : ℝ, blendConfidenceScores jc s c = max 0 (min 1 (jc * (1 - c) + s * c)))
    ∧ ∀ (simFn : List ℚ → List ℚ → Except ScoringError ℚ)
        (folderProfiles : List FolderProfile) (emb : List ℚ)
        (rec : FolderRecommendation) (fd : FolderProfile) (centroid : List ℚ) (s : ℚ),
        folderProfiles.find? (fun f => f.folderPath == rec.folderPath) = some fd →
        fd.hasValidCentroid = true → fd.folderCentroid = some centroid →
        simFn emb centroid = Except.ok s → s < 0 →
        (processRec simFn folderProfiles emb rec).similarity = some s
        ∧ (processRec simFn folderProfiles emb rec).enhancedConfidence
            = some (jsRound (blendConfidenceScores (rec.confidence / 100) s
                (if fd.coherenceScore = 0 then 1 / 2 else fd.coherenceScore) * 100)) := by
  refine ⟨fun jc s c => blendConfidenceScores_def jc s c, ?_⟩
  intro simFn folderProfiles emb rec fd centroid s hfind hvalid hcent hok hneg
  unfold processRec
  rw [hfind]
  dsimp only
  rw [hvalid, hcent]
  dsimp only
  rw [hok]
  exact ⟨rfl, rfl⟩

/-- Folder profile with a valid centroid, for the C6 witness. -/
def c6Profile : FolderProfile :=
  { folderPath := "Notes", folderName := "Notes", coherenceScore := 1 / 2,
    hasValidCentroid := true, folderCentroid := some [0, 1] }

/-- Recommendation targeting the Notes folder, for the C6 witness. -/
def c6Rec : FolderRecommendation :=
  { folderPath := "Notes", folderName := some "Notes", confidence := 100,
    reasoning := none, matchedTopics := [], matchStrength := MatchStrength.strong,
    similarity := none, enhancedConfidence := none }

/-- Witness for C6 amended: a similarity of -1/2 is stored verbatim on the
recommendation after scoring. -/
theorem blend_no_preclamp_raw_similarity_stored_witness :
    (processRec (fun _ _ => Except.ok (-(1 / 2))) [c6Profile] [1] c6Rec).similarity
      = some (-(1 / 2)) :=
  (blend_no_preclamp_raw_similarity_stored.2 (fun _ _ => Except.ok (-(1 / 2)))
    [c6Profile] [1] c6Rec c6Profile [0, 1] (-(1 / 2)) rfl rfl rfl rfl
    (by norm_num)).1

/-- Judgment reply with valid JSON wrapped in prose, used for C2: the
strict parse fails although a balanced recoverable object is present. -/
def c2ProseReply : String :=
  "Sure! Here is the JSON you asked for:\n\x7b\"primaryRecommendation\": \x7b\"folderPath\": \"Projects\", \"confidence\": 85, \"reasoning\": \"fits\"\x7d\x7d\nHope this helps."

/-- Judgment reply whose primaryRecommendation object lacks every folder
identifier alias, used for C2. -/
def c2NoIdReply : String :=
  "\x7b\"primaryRecommendation\": \x7b\"confidence\": 85, \"reasoning\": \"r\"\x7d\x7d"

/-- C2 counterexample: on a reply whose JSON is embedded in prose the
strict parse fails and the engine raises ParseError, although the
balanced-brace scan prescribed by the claim would have recovered an
object carrying folderPath "Projects"; and a parsed reply whose
primaryRecommendation has no folder identifier does not raise ParseError
— it yields a recommendation with an empty folder path. -/
theorem parse_no_brace_recovery_cex :
    jsonParse c2ProseReply = none
    ∧ (specScanBalancedObject c2ProseReply).map (fun s =>
        (parseRecommendationResponse s []).toOption.map
          (fun r => r.primaryRecommendation.folderPath))
      = some (some "Projects")
    ∧ parseRecommendationResponse c2ProseReply [] = Except.error ParseError.parseFailure
    ∧ (parseRecommendationResponse c2NoIdReply []).toOption.map
        (fun r => r.primaryRecommendation.folderPath) = some "" :=
  ⟨by rfl, by decide, by rfl, by decide⟩

/-- C2 amended: the parser attempts only a direct strict JSON parse; any
strict-parse failure surfaces as ParseError (no balanced-brace recovery,
so no recommendation is ever fabricated from a failed parse), and a reply
without a primaryRecommendation object also raises ParseError; but a
parsed reply whose primaryRecommendation merely lacks the folder
identifier succeeds with an empty folder path (shown by the
counterexample, fourth conjunct). -/
theorem parse_strict_only_no_recovery :
    (∀ (content : String) (profiles : List FolderProfile),
        jsonParse content = none →
        parseRecommendationResponse content profiles = Except.error ParseError.parseFailure)
    ∧ (∀ (content : String) (profiles : List FolderProfile) (j : JsonValue),
        jsonParse content = some j →
        j.getField "primaryRecommendation" = none →
        parseRecommendationResponse content profiles = Except.error ParseError.parseFailure) := by
  constructor
  · intro content profiles h
    unfold parseRecommendationResponse
    rw [h]
  · intro content profiles j hj hp
    unfold parseRecommendationResponse
    rw [hj]
    dsimp only
    rw [hp]

/-- Witness for C2 amended: a reply that is not JSON at all raises
ParseError. -/
theorem parse_strict_only_no_recovery_witness :
    parseRecommendationResponse "not json" [] = Except.error ParseError.parseFailure :=
  parse_strict_only_no_recovery.1 "not json" [] (by rfl)

/-- Judgment reply whose alternative has confidence 0, used for C5. -/
def c5Reply : String :=
  "\x7b\"primaryRecommendation\": \x7b\"folderPath\": \"Projects\", \"confidence\": 85, \"reasoning\": \"fits\"\x7d, \"alternatives\": [\x7b\"folderPath\": \"Archive\", \"confidence\": 0, \"reasoning\": \"no\"\x7d]\x7d"

/-- C5 counterexample: an alternative with confidence 0 is labeled
moderate, not weak — the threshold tiers are not applied to
alternatives. -/
theorem alternatives_matchStrength_cex :
    (parseRecommendationResponse c5Reply []).toOption.map
        (fun r => r.alternatives.map (fun a => (a.confidence, a.matchStrength)))
      = some [(0, MatchStrength.moderate)]
    ∧ MatchStrength.moderate ≠ MatchStrength.weak :=
  ⟨by decide, by decide⟩

/-- C5 amended: the threshold tiers (above 80 strong, above 60 moderate,
otherwise weak, ties falling into the lower tier) are applied to the
primary recommendation only; every alternative is unconditionally labeled
moderate. -/
theorem parse_matchStrength_assignment :
    (∀ (content : String) (profiles : List FolderProfile) (r : RecommendationResult),
        parseRecommendationResponse content profiles = Except.ok r →
        r.primaryRecommendation.matchStrength
            = matchStrengthOfConfidence r.primaryRecommendation.confidence
          ∧ ∀ a ∈ r.alternatives, a.matchStrength = MatchStrength.moderate)
    ∧ matchStrengthOfConfidence 81 = MatchStrength.strong
    ∧ matchStrengthOfConfidence 80 = MatchStrength.moderate
    ∧ matchStrengthOfConfidence 61 = MatchStrength.moderate
    ∧ matchStrengthOfConfidence 60 = MatchStrength.weak
    ∧ matchStrengthOfConfidence 0 = MatchStrength.weak := by
  refine ⟨?_, by decide, by decide, by decide, by decide, by decide⟩
  intro content profiles r h
  unfold parseRecommendationResponse at h
  cases hj : jsonParse content with
  | none => rw [hj] at h; exact Except.noConfusion h
  | some json =>
    rw [hj] at h
    dsimp only at h
    cases hp : json.getField "primaryRecommendation" with
    | none => rw [hp] at h; exact Except.noConfusion h
    | some pj =>
      rw [hp] at h
      dsimp only at h
      cases hb : buildRecommendation profiles matchStrengthOfConfidence pj with
      | none => rw [hb] at h; exact Except.noConfusion h
      | some primary =>
        rw [hb] at h
        dsimp only at h
        cases ha : jsArrOrEmpty (json.getField "alternatives") with
        | none => rw [ha] at h; exact Except.noConfusion h
        | some altJsons =>
          rw [ha] at h
          dsimp only at h
          cases hm : mapOption (buildRecommendation profiles (fun _ => MatchStrength.moderate)) altJsons with
          | none => rw [hm] at h; exact Except.noConfusion h
          | some alternatives =>
            rw [hm] at h
            dsimp only at h
            injection h with h2
            subst h2
            constructor
            · exact buildRecommendation_matchStrength profiles _ pj primary hb
            · intro a ha2
              obtain ⟨x, hx⟩ := mapOption_mem _ altJsons alternatives hm a ha2
              exact buildRecommendation_matchStrength profiles _ x a hx

/-- Witness for C5 amended: on the concrete reply the primary tier matches
the thresholds and every alternative is moderate. -/
theorem parse_matchStrength_assignment_witness :
    (parseRecommendationResponse c5Reply []).map
        (fun r =>
          (r.primaryRecommendation.matchStrength
              == matchStrengthOfConfidence r.primaryRecommendation.confidence)
          && r.alternatives.all (fun a => a.matchStrength == MatchStrength.moderate))
      = Except.ok true := by
  cases hp : parseRecommendationResponse c5Reply [] with
  | error e =>
    have hsome : (parseRecommendationResponse c5Reply []).toOption.isSome = true := by decide
    rw [hp] at hsome
    exact Bool.noConfusion hsome
  | ok r =>
    have hthm := parse_matchStrength_assignment.1 c5Reply [] r hp
    simp only [Except.map]
    congr 1
    simp only [Bool.and_eq_true, beq_iff_eq, List.all_eq_true]
    exact ⟨hthm.1, fun a ha => hthm.2 a ha⟩

/-- Judgment reply with out-of-range confidence 150, used for C7. -/
def c7Reply : String :=
  "\x7b\"primaryRecommendation\": \x7b\"folderPath\": \"Projects\", \"confidence\": 150, \"reasoning\": \"r\"\x7d\x7d"

/-- C7 counterexample: the parser accepts a reply with confidence 150 and
returns it verbatim — the recommendation confidence is not normalized to
[0,100]. -/
theorem confidence_not_normalized_cex :
    (parseRecommendationResponse c7Reply []).toOption.map
        (fun r => r.primaryRecommendation.confidence) = some 150
    ∧ ¬ ((150 : ℚ) ≤ 100) :=
  ⟨by decide, by norm_num⟩

/-- C7 amended: the parser copies the reply confidence without
normalization, so out-of-range confidences flow through (first conjunct);
only the enhanced confidence computed on the successful blend path is
guaranteed to lie in [0,100], being the rounded rescaled clamped blend
(second conjunct). -/
theorem confidence_verbatim_blend_bounded :
    ((parseRecommendationResponse c7Reply []).toOption.map
        (fun r => r.primaryRecommendation.confidence) = some 150)
    ∧ ∀ jc s c : ℚ,
        0 ≤ jsRound (blendConfidenceScores jc s c * 100)
        ∧ jsRound (blendConfidenceScores jc s c * 100) ≤ 100 := by
  refine ⟨by decide, ?_⟩
  intro jc s c
  apply jsRound_bounds
  · exact mul_nonneg (blendConfidenceScores_nonneg jc s c) (by norm_num)
  · have h := blendConfidenceScores_le_one jc s c
    linarith

/-- Embedding source mapping member 0 to [1,0] and member 1 to [0,1], for
the C8 centroid example. -/
def c8Emb : ℕ → Option (List ℚ) :=
  fun n => if n = 0 then some [1, 0] else if n = 1 then some [0, 1] else none

/-- C8: the centroid computation keeps exactly the members whose embedding
lookup succeeds with a non-empty vector; with no valid embedding it
returns none, and otherwise the componentwise arithmetic mean over the
valid embeddings (dimension taken from the first, missing entries read as
0); the centroid of [[1,0],[0,1]] is [1/2,1/2]; and the cached
computation is idempotent — repeating a call with the same inputs returns
the same vector (determinism itself is inherent in the pure model: the
result is a function of the member list and embedding source). -/
theorem calculateFolderCentroid_mean_and_idempotent :
    (∀ (α : Type) (getEmb : α → Option (List ℚ)) (files : List α),
        validEmbeddings getEmb files = [] → calculateFolderCentroid getEmb files = none)
    ∧ (∀ (α : Type) (getEmb : α → Option (List ℚ)) (files : List α)
        (e0 : List ℚ) (es : List (List ℚ)),
        validEmbeddings getEmb files = e0 :: es →
        calculateFolderCentroid getEmb files
          = some ((List.range e0.length).map (fun i =>
              ((e0 :: es).map (fun e => e.getD i 0)).sum / ((e0 :: es).length : ℚ))))
    ∧ calculateFolderCentroid c8Emb [0, 1] = some [1 / 2, 1 / 2]
    ∧ (∀ (α : Type) (isAvailable : Bool) (getEmb : α → Option (List ℚ))
        (cache : List (String × List ℚ)) (folderPath : String) (files : List α),
        (calculateFolderCentroidCached isAvailable getEmb
            (calculateFolderCentroidCached isAvailable getEmb cache folderPath files).2
            folderPath files).1
          = (calculateFolderCentroidCached isAvailable getEmb cache folderPath files).1) := by
  refine ⟨?_, ?_, by decide, ?_⟩
  · intro α getEmb files h
    unfold calculateFolderCentroid
    rw [h]
  · intro α getEmb files e0 es h
    unfold calculateFolderCentroid
    rw [h]
  · intro α isAvailable getEmb cache folderPath files
    unfold calculateFolderCentroidCached
    cases isAvailable with
    | false => simp
    | true =>
      simp only [Bool.true_eq_false, if_false]
      cases hl : cache.lookup folderPath with
      | some v => simp [hl]
      | none =>
        simp only [hl]
        cases hc : calculateFolderCentroid getEmb files with
        | none => simp [hl]
        | some c => simp [List.lookup]

/-- Witness for C8: the centroid of the two unit vectors is their
componentwise mean. -/
theorem calculateFolderCentroid_mean_and_idempotent_witness :
    calculateFolderCentroid c8Emb [0, 1]
      = some ((List.range (([1, 0] : List ℚ).length)).map (fun i =>
          ((([1, 0] : List ℚ) :: [[0, 1]]).map (fun e => e.getD i 0)).sum
            / ((([1, 0] : List ℚ) :: [[0, 1]]).length : ℚ))) :=
  calculateFolderCentroid_mean_and_idempotent.2.1 ℕ c8Emb [0, 1] [1, 0] [[0, 1]]
    (by decide)

/-- C9 counterexample: two identical zero-magnitude embeddings have
coherence 0, not 1 — the division guard of cosineSimilarity returns 0 for
a zero-magnitude pair, so the claim that a pair of identical vectors
always contributes similarity 1.0 fails. -/
theorem calculateCoherence_identical_zero_cex :
    calculateCoherence true (fun _ : Unit => some [(0 : ℝ)]) [(), ()] = 0
    ∧ (0 : ℝ) ≠ 1 := by
  have hcos : cosineSimilarity [(0 : ℝ)] [(0 : ℝ)] = 0 := by
    unfold cosineSimilarity
    rw [if_neg (by simp)]
    dsimp only
    rw [if_pos (Or.inl (by norm_num [Real.sqrt_zero]))]
  refine ⟨?_, by norm_num⟩
  unfold calculateCoherence
  rw [if_neg (by simp)]
  simp [List.filterMap, pairsOf, hcos]

/-- C9 amended: coherence is 0.7 when the backend is unusable or fewer
than two valid embeddings are available, and otherwise the average of
pairwise cosine similarity over the n(n-1)/2 unordered pairs of valid
embeddings; a pair of identical vectors of nonzero magnitude contributes
similarity 1.0, so the coherence of two identical nonzero embeddings is
1.0 (zero-magnitude pairs contribute 0 by the division guard, see the
counterexample). -/
theorem calculateCoherence_default_and_average :
    (∀ (α : Type) (getEmb : α → Option (List ℝ)) (files : List α),
        calculateCoherence false getEmb files = 7 / 10)
    ∧ (∀ (α : Type) (isAvailable : Bool) (getEmb : α → Option (List ℝ)) (files : List α),
        (files.filterMap getEmb).length < 2 →
        calculateCoherence isAvailable getEmb files = 7 / 10)
    ∧ (∀ (α : Type) (getEmb : α → Option (List ℝ)) (files : List α),
        2 ≤ (files.filterMap getEmb).length →
        calculateCoherence true getEmb files
          = ((pairsOf (files.filterMap getEmb)).map
              (fun p => cosineSimilarity p.1 p.2)).sum
            / (((files.filterMap getEmb).length
                * ((files.filterMap getEmb).length - 1) / 2 : ℕ) : ℝ))
    ∧ (∀ v : List ℝ, (v.map (fun x => x * x)).sum ≠ 0 →
        calculateCoherence true (fun _ : Unit => some v) [(), ()] = 1) := by
  refine ⟨?_, ?_, ?_, ?_⟩
  · intro α getEmb files
    unfold calculateCoherence
    rw [if_pos (Or.inl rfl)]
  · intro α isAvailable getEmb files h
    unfold calculateCoherence
    by_cases hfirst : isAvailable = false ∨ files.length < 2
    · rw [if_pos hfirst]
    · rw [if_neg hfirst]
      dsimp only
      rw [if_pos h]
  · intro α getEmb files h
    have hfl : 2 ≤ files.length :=
      le_trans h (List.length_filterMap_le getEmb files)
    unfold calculateCoherence
    rw [if_neg (by push_neg; exact ⟨by simp, by omega⟩)]
    dsimp only
    rw [if_neg (by omega)]
    have hpos : 0 < (pairsOf (files.filterMap getEmb)).length := by
      rw [pairsOf_length]
      have h2 : 2 * 1 ≤ (files.filterMap getEmb).length
          * ((files.filterMap getEmb).length - 1) :=
        Nat.mul_le_mul h (by omega)
      exact Nat.div_pos (by simpa using h2) (by norm_num)
    rw [if_pos hpos, pairsOf_length]
  · intro v hv
    unfold calculateCoherence
    rw [if_neg (by simp)]
    simp [List.filterMap, pairsOf, cosineSimilarity_self v hv]

/-- Witness for C9 amended: two identical copies of the nonzero embedding
[1] have coherence exactly 1. -/
theorem calculateCoherence_default_and_average_witness :
    calculateCoherence true (fun _ : Unit => some [(1 : ℝ)]) [(), ()] = 1 :=
  calculateCoherence_default_and_average.2.2.2 [(1 : ℝ)] (by norm_num)

/-- C10: cosineSimilarity is a total function whose guards prevent any
division by zero: vectors of different lengths give 0, a zero magnitude
on either side gives 0, and otherwise the result is the dot product
divided by the (then provably nonzero) product of the magnitudes. -/
theorem cosineSimilarity_total_guarded :
    ∀ v1 v2 : List ℝ,
      (v1.length ≠ v2.length → cosineSimilarity v1 v2 = 0)
      ∧ ((Real.sqrt ((v1.map (fun v => v * v)).sum) = 0
          ∨ Real.sqrt ((v2.map (fun v => v * v)).sum) = 0) →
          cosineSimilarity v1 v2 = 0)
      ∧ (v1.length = v2.length →
          Real.sqrt ((v1.map (fun v => v * v)).sum) ≠ 0 →
          Real.sqrt ((v2.map (fun v => v * v)).sum) ≠ 0 →
          cosineSimilarity v1 v2
            = (List.zipWith (fun a b => a * b) v1 v2).sum
              / (Real.sqrt ((v1.map (fun v => v * v)).sum)
                  * Real.sqrt ((v2.map (fun v => v * v)).sum))
          ∧ Real.sqrt ((v1.map (fun v => v * v)).sum)
              * Real.sqrt ((v2.map (fun v => v * v)).sum) ≠ 0) := by
  intro v1 v2
  refine ⟨?_, ?_, ?_⟩
  · intro h
    unfold cosineSimilarity
    rw [if_pos h]
  · intro h
    unfold cosineSimilarity
    by_cases hl : v1.length ≠ v2.length
    · rw [if_pos hl]
    · rw [if_neg hl]
      dsimp only
      rw [if_pos h]
  · intro hl h1 h2
    unfold cosineSimilarity
    rw [if_neg (fun hne => hne hl)]
    dsimp only
    rw [if_neg (by push_neg; exact ⟨h1, h2⟩)]
    exact ⟨rfl, mul_ne_zero h1 h2⟩

/-- Witness for C10: a length mismatch gives 0, and two copies of the unit
vector give dot 1 over magnitude product 1, hence 1. -/
theorem cosineSimilarity_total_guarded_witness :
    cosineSimilarity [(1 : ℝ)] [1, 0] = 0 ∧ cosineSimilarity [(1 : ℝ)] [1] = 1 := by
  constructor
  · exact (cosineSimilarity_total_guarded [(1 : ℝ)] [1, 0]).1 (by simp)
  · have hs : Real.sqrt ((([(1 : ℝ)]).map (fun v => v * v)).sum) ≠ 0 := by
      simp
    have h := (cosineSimilarity_total_guarded [(1 : ℝ)] [1]).2.2 rfl hs hs
    rw [h.1]
    simp

end Theorems
